import Mathlib

/-!
Verification development for the RSSBot repository (`bot.py`).

The definitions below are a shallow embedding of the subscription store,
the per-feed poll cycle (`check_feed`), the subscribe and unsubscribe
command handlers, and the content renderer of `bot.py`.  The Redis store
is modelled as a record of finitely-branching functions; redis sets are
modelled as duplicate-free lists (SADD appends when absent, SREM erases,
a set key exists iff the list is non-empty, matching decode_responses
semantics).  `utils.get_new_entries` lives in `utils.py`, which is not
part of the available sources; it is modelled from the specification and
marked as such in its doc comment.
-/

set_option maxHeartbeats 1000000
set_option maxRecDepth 16384

namespace RSSBot

/-- A feed entry as handed to `bot.py` by the feed parser: optional native
id, link, title and body fields.  `content` holds the first content value
when present (the source reads `entry.content[0].value`), `summary` the
summary field. -/
structure Entry where
  id : Option String
  link : Option String
  title : Option String
  content : Option String
  summary : Option String
deriving Repr, DecidableEq

/-- A fetched feed as used by `bot.py`: `link` and `title` of the feed
itself (the source reads `data.feed.link` and `data.feed.title`), the
post-redirect URL `href` (the source reads `data.href`), and the entry
list ordered newest-first. -/
structure FeedData where
  link : Option String
  title : Option String
  href : String
  entries : List Entry
deriving Repr, DecidableEq

/-- The Redis store of `bot.py`, one field per key family.  `chatFeeds c`
models the set stored at the chat key for chat id `c` (the feed URLs the
chat subscribes to), `feedSubs f` the set stored at the subs key of feed
URL `f` (the subscriber chat ids), and `marker f` the string stored at
the last_entry key of feed URL `f`.  An empty list models an absent set
key, `none` an absent marker key. -/
structure Store where
  chatFeeds : String → List String
  feedSubs : String → List String
  marker : String → Option String

/-- Redis SADD on the list model of a set: append the element when it is
absent, otherwise leave the set unchanged. -/
def sadd (l : List String) (x : String) : List String :=
  if x ∈ l then l else l ++ [x]

/-- The identifier stored as a marker for an entry, following bot.py lines
203 to 206 and 351 to 354: the entry id when present, otherwise its link.
`none` models the exception raised when both fields are absent. -/
def entry_identifier (e : Entry) : Option String :=
  match e.id with
  | some i => some i
  | none => e.link

/-- Modelled from the spec: `utils.get_new_entries` is in `utils.py`,
which is not under src/.  Spec section 4.2: an entry matches the Marker
if its id equals the Marker, or, when the entry has no id, its link
equals the Marker. -/
def entry_matches (m : String) (e : Entry) : Bool :=
  match e.id with
  | some i => i = m
  | none => e.link = some m

/-- Modelled from the spec: scan helper for `utils.get_new_entries` (not
under src/).  Scans the newest-first entry list and returns `some` of the
entries strictly preceding the first entry that matches the marker, or
`none` when no entry matches. -/
def new_entries_scan (m : String) : List Entry → Option (List Entry)
  | [] => none
  | e :: rest =>
    if entry_matches m e then some []
    else (new_entries_scan m rest).map (fun l => e :: l)

/-- Modelled from the spec: `utils.get_new_entries` is in `utils.py`,
which is not under src/.  Spec section 4.2: collect all entries preceding
the match; when the marker is absent, or present but matching no entry,
report zero new entries (never flood). -/
def get_new_entries (entries : List Entry) (marker : Option String) : List Entry :=
  match marker with
  | none => []
  | some m => (new_entries_scan m entries).getD []

/-- Characters allowed in a URL scheme by `urllib.parse`. -/
def isSchemeChar (c : Char) : Bool :=
  c.isAlphanum || c = '+' || c = '-' || c = '.'

/-- Scheme removal of `urllib.parse.urlparse`: when the string has a colon
preceded by a non-empty valid scheme (letter first), drop the scheme and
the colon. -/
def stripScheme (cs : List Char) : List Char :=
  match cs.findIdx? (fun c => c = ':') with
  | some i =>
    if 0 < i && (cs.headD ' ').isAlpha && (cs.take i).all isSchemeChar then
      cs.drop (i + 1)
    else cs
  | none => cs

/-- `urllib.parse.urlparse(url).netloc` as used at bot.py line 298: after
the scheme, a netloc is present iff the remainder starts with two slashes,
and extends to the first slash, question mark or hash sign. -/
def netloc (url : String) : String :=
  match stripScheme url.toList with
  | '/' :: '/' :: rest =>
    String.mk (rest.takeWhile (fun c => c ≠ '/' && c ≠ '?' && c ≠ '#'))
  | _ => ""

/-- Drop an exact prefix from a character list, returning the remainder
when the prefix is present. -/
def dropLiteral : List Char → List Char → Option (List Char)
  | [], cs => some cs
  | _ :: _, [] => none
  | p :: ps, c :: cs => if c = p then dropLiteral ps cs else none

/-- The feedproxy regex search at bot.py line 294.  The pattern anchors at
the start, so it matches iff the link starts with the fixed feedproxy
prefix and the remainder contains a slash after at least one character;
the non-greedy group is then the run of characters before that first
slash (the regex dot does not cross a newline, hence the newline guard). -/
def feedproxy_group (link : String) : Option String :=
  match
    (match dropLiteral ("https://feedproxy.google.com/~r/".toList) link.toList with
     | some r => some r
     | none => dropLiteral ("http://feedproxy.google.com/~r/".toList) link.toList) with
  | none => none
  | some cs =>
    match (cs.drop 1).findIdx? (fun c => c = '/') with
    | none => none
    | some j =>
      if (cs.take (j + 1)).all (fun c => c ≠ '\n') then
        some (String.mk (cs.take (j + 1)))
      else none

/-- The substitution at bot.py line 299: remove one leading occurrence of
the letters www followed by an optional single decimal digit and a dot.
The regex is anchored, so at most one removal happens, at the start. -/
def strip_www_chars (cs : List Char) : List Char :=
  if cs.take 4 = ['w', 'w', 'w', '.'] then cs.drop 4
  else if cs.take 3 = ['w', 'w', 'w'] && (cs.getD 3 ' ').isDigit
      && (cs.getD 4 ' ' = '.') then cs.drop 5
  else cs

/-- String version of `strip_www_chars`. -/
def strip_www (s : String) : String :=
  String.mk (strip_www_chars s.toList)

/-- The raw display label chosen at bot.py lines 289 to 298, before the
www substitution: the feed link when the entry has no link, else the
wrapped feedproxy path segment when the feedproxy regex matches, else the
netloc of the entry link. -/
def raw_label (entryLink : Option String) (dlink : String) : String :=
  match entryLink with
  | none => dlink
  | some l =>
    match feedproxy_group l with
    | some g => g
    | none => netloc l

/-- The final display label of the trailing link (bot.py lines 289 to
299): the raw label with the www substitution applied. -/
def link_name_code (entryLink : Option String) (dlink : String) : String :=
  strip_www (raw_label entryLink dlink)

/-- The link target of the trailing link line: the entry link, or the
feed link when the entry has none (bot.py lines 289 to 293). -/
def post_link_of (entryLink : Option String) (dlink : String) : String :=
  match entryLink with
  | none => dlink
  | some l => l

/-- Collaborator text sanitizers (spec section 4.3): `utils.remove_html_tags`
and `utils.get_content` are external to src/ and enter the model as
parameters. -/
structure Collab where
  removeTags : String → String
  getContent : String → String

/-- Character-level form of the two Python replace calls at bot.py line
288; the replacement texts contain no angle bracket, so the two
sequential replaces equal one simultaneous character substitution. -/
def escapeAnglesChars : List Char → List Char
  | [] => []
  | '<' :: rest => '&' :: 'l' :: 't' :: ';' :: escapeAnglesChars rest
  | '>' :: rest => '&' :: 'g' :: 't' :: ';' :: escapeAnglesChars rest
  | c :: rest => c :: escapeAnglesChars rest

/-- The angle bracket escaping at bot.py line 288. -/
def escapeAngles (s : String) : String :=
  String.mk (escapeAnglesChars s.toList)

/-- Python str.strip() as called at bot.py line 287: remove whitespace
from both ends. -/
def pyStrip (s : String) : String :=
  String.mk
    (((s.toList.dropWhile Char.isWhitespace).reverse.dropWhile Char.isWhitespace).reverse)

/-- The feed title fallback of check_feed (bot.py lines 276 to 279). -/
def check_title (data : FeedData) (dlink : String) : String :=
  match data.title with
  | none => dlink
  | some t => t

/-- The rendered message text for one entry (bot.py lines 284 to 315). -/
def render (co : Collab) (feed_title dlink : String) (e : Entry) : String :=
  "<b>" ++
    (match e.title with
     | none => "No title"
     | some t => escapeAngles (pyStrip (co.removeTags t))) ++
  "</b>\n<i>" ++ feed_title ++ "</i>\n" ++
    (match e.content with
     | some c => co.getContent c
     | none =>
       match e.summary with
       | some su => co.getContent su
       | none => "") ++
  "\n<a href=\"" ++ post_link_of e.link dlink ++ "\">" ++
  "Read more on " ++ link_name_code e.link dlink ++ "</a>\n"

/-- Transport outcome of one sendMessage call, spec section 6: the five
exception classes handled at bot.py lines 316 to 343. -/
inductive SendResult where
  | success
  | unauthorized
  | migrated (newChatId : String)
  | timedOut
  | badRequest
deriving Repr, DecidableEq

/-- Redis RENAME of the chat key at bot.py line 333: the new key receives
the old value (overwriting any previous value) and the old key is gone. -/
def renameChat (cf : String → List String) (old nw : String) : String → List String :=
  fun c => if c = nw then cf old else if c = old then [] else cf c

/-- State threaded through the delivery loops of check_feed: the store
after the mutations made so far, the attempted (recipient, text) pairs in
order, and whether an uncaught exception has aborted the check_feed
invocation.  The only uncaught exception inside the loops is one raised
by the retry at bot.py line 334: it sits inside the ChatMigrated handler,
so the surrounding try does not catch it and it propagates out of
check_feed, with the Redis mutations already made kept. -/
structure DeliverState where
  store : Store
  log : List (String × String)
  aborted : Bool

/-- One delivery attempt to one subscriber (bot.py lines 316 to 343).
Success, TimedOut and BadRequest leave the store unchanged.  Unauthorized
removes the member from this feed subs set and deletes the member chat
key (lines 324 to 327).  ChatMigrated removes the member from this feed
subs set, adds the new chat id, renames the member chat key, and makes
one more delivery attempt, which bot.py line 334 addresses to the
original member id; an exception raised by that retry is uncaught (it is
inside the handler) and aborts the invocation.  The abort flag follows
the retry outcome: only a Success continues.  The transport is a
function of recipient and text and the retry repeats both, so the retry
yields the same Migrated outcome again, exactly as the real API keeps
reporting the migration for the old chat id. -/
def deliver_member (send : String → String → SendResult) (url text member : String)
    (s : Store) : DeliverState :=
  match send member text with
  | SendResult.success => ⟨s, [(member, text)], false⟩
  | SendResult.timedOut => ⟨s, [(member, text)], false⟩
  | SendResult.badRequest => ⟨s, [(member, text)], false⟩
  | SendResult.unauthorized =>
    ⟨{ s with
        feedSubs := fun f => if f = url then (s.feedSubs f).erase member else s.feedSubs f,
        chatFeeds := fun c => if c = member then [] else s.chatFeeds c },
     [(member, text)], false⟩
  | SendResult.migrated nc =>
    ⟨{ s with
        feedSubs := fun f => if f = url then sadd ((s.feedSubs f).erase member) nc
                             else s.feedSubs f,
        chatFeeds := renameChat s.chatFeeds member nc },
     [(member, text), (member, text)],
     match send member text with
     | SendResult.success => false
     | _ => true⟩

/-- The inner loop of check_feed over a snapshot of the subscriber set
(bot.py line 316); an abort stops the loop, later members are not
attempted. -/
def deliver_members (send : String → String → SendResult) (url text : String) :
    List String → Store → DeliverState
  | [], s => ⟨s, [], false⟩
  | m :: ms, s =>
    let r1 := deliver_member send url text m s
    if r1.aborted then r1
    else
      let r2 := deliver_members send url text ms r1.store
      ⟨r2.store, r1.log ++ r2.log, r2.aborted⟩

/-- The outer loop of check_feed over the rendered texts of the new
entries, oldest first (bot.py line 283); the subscriber snapshot is taken
afresh for each entry, and an abort stops the loop. -/
def deliver_texts (send : String → String → SendResult) (url : String) :
    List String → Store → DeliverState
  | [], s => ⟨s, [], false⟩
  | t :: ts, s =>
    let r1 := deliver_members send url t (s.feedSubs url) s
    if r1.aborted then r1
    else
      let r2 := deliver_texts send url ts r1.store
      ⟨r2.store, r1.log ++ r2.log, r2.aborted⟩

/-- The tail of check_feed (bot.py lines 345 to 355): when the subs key no
longer exists the marker is deleted and the cycle ends; otherwise, when
there are new entries, the marker becomes the identifier of the newest
new entry, `none` modelling the exception when it has neither id nor
link. -/
def check_finish (feedUrl : String) (newEntries : List Entry)
    (p : Store × List (String × String)) : Option (Store × List (String × String)) :=
  if p.1.feedSubs feedUrl = [] then
    some ({ p.1 with marker := fun f => if f = feedUrl then none else p.1.marker f }, p.2)
  else
    match newEntries with
    | [] => some p
    | e :: _ =>
      match entry_identifier e with
      | none => none
      | some i =>
        some ({ p.1 with marker := fun f => if f = feedUrl then some i else p.1.marker f }, p.2)

/-- Dispatch after the delivery loops: when an uncaught exception aborted
the invocation, the store keeps the mutations made so far and bot.py
lines 345 to 355 never run (no marker update); otherwise the tail
`check_finish` applies. -/
def check_tail (feedUrl : String) (newEntries : List Entry) (r : DeliverState) :
    Option (Store × List (String × String)) :=
  if r.aborted then some (r.store, r.log)
  else check_finish feedUrl newEntries (r.store, r.log)

/-- One poll cycle for one feed: bot.py check_feed, lines 265 to 355.
A feed whose data lacks a feed link is logged and left untouched (lines
270 to 275).  Otherwise the new entries are computed from the stored
marker, each is rendered and delivered to every current subscriber,
oldest entry first; an uncaught exception from the line-334 retry ends
the invocation with the mutations made so far, otherwise the marker is
advanced by `check_finish`. -/
def check_feed (co : Collab) (send : String → String → SendResult) (s : Store)
    (feedUrl : String) (data : FeedData) : Option (Store × List (String × String)) :=
  match data.link with
  | none => some (s, [])
  | some dlink =>
    check_tail feedUrl (get_new_entries data.entries (s.marker feedUrl))
      (deliver_texts send feedUrl
        ((get_new_entries data.entries (s.marker feedUrl)).reverse.map
          (render co (check_title data dlink) dlink)) s)

/-- Result of the subscribe handler. -/
inductive SubResult where
  | invalidFeed
  | alreadySubscribed
  | added
deriving Repr, DecidableEq

/-- The marker seeding step of subscribe (bot.py lines 199 to 207): when
the feed has entries and no marker is stored yet, store the identifier of
the newest entry; `none` models the exception when that entry has neither
id nor link. -/
def subscribe_seed (s : Store) (feedUrl : String) : List Entry → Option Store
  | [] => some s
  | e :: _ =>
    if (s.marker feedUrl).isSome then some s
    else
      match entry_identifier e with
      | none => none
      | some i =>
        some { s with marker := fun f => if f = feedUrl then some i else s.marker f }

/-- The two set inserts of subscribe (bot.py lines 209 to 210). -/
def subscribe_add (s1 : Store) (chatId feedUrl : String) : Store :=
  { s1 with
    feedSubs := fun f => if f = feedUrl then sadd (s1.feedSubs f) chatId else s1.feedSubs f,
    chatFeeds := fun c => if c = chatId then sadd (s1.chatFeeds c) feedUrl else s1.chatFeeds c }

/-- The subscribe handler after URL validation and chat resolution
(bot.py lines 157 to 214): reject a feed without a feed link, follow
redirects (`data.href`), report an existing subscription without any
mutation, otherwise seed the marker and insert the two set members. -/
def subscribe (s : Store) (chatId : String) (data : FeedData) :
    Option (SubResult × Store) :=
  match data.link with
  | none => some (SubResult.invalidFeed, s)
  | some _ =>
    if data.href ∈ s.chatFeeds chatId then some (SubResult.alreadySubscribed, s)
    else
      (subscribe_seed s data.href data.entries).map
        (fun s1 => (SubResult.added, subscribe_add s1 chatId data.href))

/-- Result of the unsubscribe handler. -/
inductive UnsubResult where
  | noNumber
  | tooLow
  | tooHigh
  | removed (url : String)
deriving Repr, DecidableEq

/-- Python int() applied to a command argument, restricted to ASCII:
optional surrounding whitespace, an optional sign, then decimal digits
with single underscores allowed between digits. -/
def digits_core (acc : Nat) : List Char → Option Nat
  | [] => some acc
  | '_' :: d :: rest =>
    if d.isDigit then digits_core (10 * acc + (d.toNat - 48)) rest else none
  | d :: rest =>
    if d.isDigit then digits_core (10 * acc + (d.toNat - 48)) rest else none

/-- Digit-run parser for `parse_int`: the first character must be a
digit. -/
def digits_value : List Char → Option Nat
  | [] => none
  | d :: rest => if d.isDigit then digits_core (d.toNat - 48) rest else none

/-- Python int() on a string (the call at bot.py line 238); `none` models
the ValueError branch. -/
def parse_int (a : String) : Option Int :=
  match ((a.toList.dropWhile Char.isWhitespace).reverse.dropWhile
      Char.isWhitespace).reverse with
  | [] => none
  | c :: rest =>
    if c = '-' then (digits_value rest).map (fun n => -(n : Int))
    else if c = '+' then (digits_value rest).map (fun n => (n : Int))
    else (digits_value (c :: rest)).map (fun n => (n : Int))

/-- The two set removals of unsubscribe (bot.py lines 254 to 255). -/
def unsubscribe_remove (s : Store) (chatId url : String) : Store :=
  { s with
    chatFeeds := fun c => if c = chatId then (s.chatFeeds c).erase url else s.chatFeeds c,
    feedSubs := fun f => if f = url then (s.feedSubs f).erase chatId else s.feedSubs f }

/-- The marker cleanup of unsubscribe (bot.py lines 256 to 257): when the
feed subs set became empty, delete the marker. -/
def unsubscribe_clean (s1 : Store) (url : String) : Store :=
  if s1.feedSubs url = [] then
    { s1 with marker := fun f => if f = url then none else s1.marker f }
  else s1

/-- The unsubscribe handler after chat resolution (bot.py lines 218 to
262): `arg = none` models a missing argument, a non-integer argument is
rejected, positions below 1 or above the subscription count are rejected,
all without mutation; otherwise the feed at the given position of the
chat set enumeration is removed from both sets and the marker cleaned
up. -/
def unsubscribe (s : Store) (chatId : String) (arg : Option String) :
    UnsubResult × Store :=
  match arg with
  | none => (UnsubResult.noNumber, s)
  | some a =>
    match parse_int a with
    | none => (UnsubResult.noNumber, s)
    | some n =>
      if n < 1 then (UnsubResult.tooLow, s)
      else if n > ((s.chatFeeds chatId).length : Int) then (UnsubResult.tooHigh, s)
      else
        (UnsubResult.removed ((s.chatFeeds chatId).getD (n - 1).toNat ""),
         unsubscribe_clean
           (unsubscribe_remove s chatId ((s.chatFeeds chatId).getD (n - 1).toNat ""))
           ((s.chatFeeds chatId).getD (n - 1).toNat ""))

/-- One tick of the scheduler (bot.py run_job, lines 358 to 363): the
feed keys are snapshot and check_feed runs for each feed in turn; `none`
models an uncaught exception in one of the runs. -/
def run_cycle (co : Collab) (send : String → String → SendResult) :
    List (String × FeedData) → Store → Option Store
  | [], s => some s
  | (u, d) :: rest, s =>
    match check_feed co send s u d with
    | none => none
    | some p => run_cycle co send rest p.1

/-- A public operation of the core, for invariant statements: subscribe,
unsubscribe, or one per-feed poll cycle with an arbitrary transport. -/
inductive Op where
  | sub (chatId : String) (data : FeedData)
  | unsub (chatId : String) (arg : Option String)
  | poll (co : Collab) (send : String → String → SendResult) (feedUrl : String)
      (data : FeedData)

/-- The store produced by one public operation, `none` modelling an
uncaught exception. -/
def apply_op (op : Op) (s : Store) : Option Store :=
  match op with
  | Op.sub c d => (subscribe s c d).map (fun p => p.2)
  | Op.unsub c a => some (unsubscribe s c a).2
  | Op.poll co send u d => (check_feed co send s u d).map (fun p => p.1)

/-- Spec invariant 2 (section 3): a marker exists for a feed iff the feed
subscriber set is non-empty. -/
def MarkerInv (s : Store) : Prop :=
  ∀ f, (s.marker f).isSome = true ↔ s.feedSubs f ≠ []

/-! Concrete fixtures used by the witness theorems. -/

/-- The empty store: no keys at all. -/
def store0 : Store := ⟨fun _ => [], fun _ => [], fun _ => none⟩

/-- Identity collaborators for concrete computations. -/
def idCollab : Collab := ⟨id, id⟩

/-- A transport that always succeeds. -/
def sendOk : String → String → SendResult := fun _ _ => SendResult.success

/-- Concrete feed URL used by the concrete instances below. -/
def wUrl : String := "https://example.org/feed"

/-- Concrete entry number `i` of the sample feed. -/
def wEntry (i : Nat) : Entry :=
  ⟨some ("id" ++ toString i), some ("https://example.org/p" ++ toString i),
   some ("Post " ++ toString i), none, none⟩

/-- Concrete sample feed with ten entries, newest first. -/
def wData : FeedData :=
  ⟨some "https://example.org/", some "Example", wUrl,
   [wEntry 0, wEntry 1, wEntry 2, wEntry 3, wEntry 4,
    wEntry 5, wEntry 6, wEntry 7, wEntry 8, wEntry 9]⟩

/-- Concrete store with chat 100 subscribed to the sample feed and the
marker at entry id4. -/
def wStore : Store :=
  ⟨fun c => if c = "100" then [wUrl] else [],
   fun f => if f = wUrl then ["100"] else [],
   fun f => if f = wUrl then some "id4" else none⟩

/-! Helper lemmas about the set model and the delivery loops. -/

theorem sadd_ne_nil (l : List String) (x : String) : sadd l x ≠ [] := by
  unfold sadd
  split
  · rename_i hx
    intro h
    subst h
    simp at hx
  · simp

theorem mem_sadd_self (l : List String) (x : String) : x ∈ sadd l x := by
  unfold sadd
  split
  · assumption
  · simp

theorem count_sadd_self_of_not_mem (l : List String) (x : String) (hx : x ∉ l) :
    (sadd l x).count x = 1 := by
  unfold sadd
  rw [if_neg hx, List.count_append, List.count_eq_zero.mpr hx]
  simp

theorem ne_nil_of_erase_ne_nil (l : List String) (x : String) (h : l.erase x ≠ []) :
    l ≠ [] := by
  intro hl
  subst hl
  simp at h

theorem deliver_members_cons (send : String → String → SendResult) (url text m : String)
    (ms : List String) (s : Store) :
    deliver_members send url text (m :: ms) s =
      if (deliver_member send url text m s).aborted then deliver_member send url text m s
      else
        ⟨(deliver_members send url text ms (deliver_member send url text m s).store).store,
         (deliver_member send url text m s).log ++
           (deliver_members send url text ms (deliver_member send url text m s).store).log,
         (deliver_members send url text ms (deliver_member send url text m s).store).aborted⟩ :=
  rfl

theorem deliver_texts_cons (send : String → String → SendResult) (url t : String)
    (ts : List String) (s : Store) :
    deliver_texts send url (t :: ts) s =
      if (deliver_members send url t (s.feedSubs url) s).aborted then
        deliver_members send url t (s.feedSubs url) s
      else
        ⟨(deliver_texts send url ts
            (deliver_members send url t (s.feedSubs url) s).store).store,
         (deliver_members send url t (s.feedSubs url) s).log ++
           (deliver_texts send url ts
             (deliver_members send url t (s.feedSubs url) s).store).log,
         (deliver_texts send url ts
           (deliver_members send url t (s.feedSubs url) s).store).aborted⟩ :=
  rfl

theorem deliver_member_marker (send : String → String → SendResult)
    (url text member : String) (s : Store) :
    (deliver_member send url text member s).store.marker = s.marker := by
  unfold deliver_member
  cases send member text <;> rfl

theorem deliver_member_feedSubs_ne (send : String → String → SendResult)
    (url text member f : String) (s : Store) (hf : f ≠ url) :
    (deliver_member send url text member s).store.feedSubs f = s.feedSubs f := by
  unfold deliver_member
  cases send member text <;> simp [hf]

theorem deliver_member_abort_subs (send : String → String → SendResult)
    (url text member : String) (s : Store)
    (h : (deliver_member send url text member s).aborted = true) :
    (deliver_member send url text member s).store.feedSubs url ≠ [] := by
  unfold deliver_member at h ⊢
  cases hst : send member text with
  | success => rw [hst] at h; simp at h
  | timedOut => rw [hst] at h; simp at h
  | badRequest => rw [hst] at h; simp at h
  | unauthorized => rw [hst] at h; simp at h
  | migrated nc =>
    show (if url = url then sadd ((s.feedSubs url).erase member) nc else s.feedSubs url) ≠ []
    rw [if_pos rfl]
    exact sadd_ne_nil _ _

theorem deliver_members_marker (send : String → String → SendResult)
    (url text : String) (ms : List String) (s : Store) :
    (deliver_members send url text ms s).store.marker = s.marker := by
  induction ms generalizing s with
  | nil => rfl
  | cons m rest ih =>
    rw [deliver_members_cons]
    split
    · exact deliver_member_marker send url text m s
    · show (deliver_members send url text rest
        (deliver_member send url text m s).store).store.marker = s.marker
      rw [ih, deliver_member_marker]

theorem deliver_members_feedSubs_ne (send : String → String → SendResult)
    (url text f : String) (hf : f ≠ url) (ms : List String) (s : Store) :
    (deliver_members send url text ms s).store.feedSubs f = s.feedSubs f := by
  induction ms generalizing s with
  | nil => rfl
  | cons m rest ih =>
    rw [deliver_members_cons]
    split
    · exact deliver_member_feedSubs_ne send url text m f s hf
    · show (deliver_members send url text rest
        (deliver_member send url text m s).store).store.feedSubs f = s.feedSubs f
      rw [ih, deliver_member_feedSubs_ne send url text m f s hf]

theorem deliver_members_abort_subs (send : String → String → SendResult)
    (url text : String) (ms : List String) (s : Store)
    (h : (deliver_members send url text ms s).aborted = true) :
    (deliver_members send url text ms s).store.feedSubs url ≠ [] := by
  induction ms generalizing s with
  | nil => simp [deliver_members] at h
  | cons m rest ih =>
    rw [deliver_members_cons] at h ⊢
    by_cases hab : (deliver_member send url text m s).aborted = true
    · rw [if_pos hab] at h ⊢
      exact deliver_member_abort_subs send url text m s hab
    · rw [if_neg hab] at h ⊢
      have h2 : (deliver_members send url text rest
          (deliver_member send url text m s).store).aborted = true := h
      show (deliver_members send url text rest
        (deliver_member send url text m s).store).store.feedSubs url ≠ []
      exact ih _ h2

theorem deliver_texts_marker (send : String → String → SendResult)
    (url : String) (ts : List String) (s : Store) :
    (deliver_texts send url ts s).store.marker = s.marker := by
  induction ts generalizing s with
  | nil => rfl
  | cons t rest ih =>
    rw [deliver_texts_cons]
    split
    · exact deliver_members_marker send url t _ s
    · show (deliver_texts send url rest
        (deliver_members send url t (s.feedSubs url) s).store).store.marker = s.marker
      rw [ih, deliver_members_marker]

theorem deliver_texts_feedSubs_ne (send : String → String → SendResult)
    (url f : String) (hf : f ≠ url) (ts : List String) (s : Store) :
    (deliver_texts send url ts s).store.feedSubs f = s.feedSubs f := by
  induction ts generalizing s with
  | nil => rfl
  | cons t rest ih =>
    rw [deliver_texts_cons]
    split
    · exact deliver_members_feedSubs_ne send url t f hf _ s
    · show (deliver_texts send url rest
        (deliver_members send url t (s.feedSubs url) s).store).store.feedSubs f = s.feedSubs f
      rw [ih, deliver_members_feedSubs_ne send url t f hf]

theorem deliver_texts_abort_subs (send : String → String → SendResult)
    (url : String) (ts : List String) (s : Store)
    (h : (deliver_texts send url ts s).aborted = true) :
    (deliver_texts send url ts s).store.feedSubs url ≠ [] := by
  induction ts generalizing s with
  | nil => simp [deliver_texts] at h
  | cons t rest ih =>
    rw [deliver_texts_cons] at h ⊢
    by_cases hab : (deliver_members send url t (s.feedSubs url) s).aborted = true
    · rw [if_pos hab] at h ⊢
      exact deliver_members_abort_subs send url t _ s hab
    · rw [if_neg hab] at h ⊢
      have h2 : (deliver_texts send url rest
          (deliver_members send url t (s.feedSubs url) s).store).aborted = true := h
      show (deliver_texts send url rest
        (deliver_members send url t (s.feedSubs url) s).store).store.feedSubs url ≠ []
      exact ih _ h2

theorem deliver_texts_of_no_subs (send : String → String → SendResult)
    (url : String) (ts : List String) (s : Store) (h : s.feedSubs url = []) :
    deliver_texts send url ts s = ⟨s, [], false⟩ := by
  induction ts with
  | nil => rfl
  | cons t rest ih =>
    have hm0 : deliver_members send url t (s.feedSubs url) s = ⟨s, [], false⟩ := by
      rw [h]
      rfl
    rw [deliver_texts_cons, hm0]
    rw [if_neg (by simp : ¬ ((⟨s, [], false⟩ : DeliverState).aborted = true))]
    show (⟨(deliver_texts send url rest s).store, [] ++ (deliver_texts send url rest s).log,
      (deliver_texts send url rest s).aborted⟩ : DeliverState) = ⟨s, [], false⟩
    rw [ih]
    rfl

theorem deliver_texts_single_success (send : String → String → SendResult)
    (url c : String) (hsend : ∀ m t, send m t = SendResult.success)
    (ts : List String) (s : Store) (hsubs : s.feedSubs url = [c]) :
    deliver_texts send url ts s = ⟨s, ts.map (fun t => (c, t)), false⟩ := by
  induction ts with
  | nil => rfl
  | cons t rest ih =>
    have hm : deliver_member send url t c s = ⟨s, [(c, t)], false⟩ := by
      unfold deliver_member
      rw [hsend c t]
    have h1 : deliver_members send url t (s.feedSubs url) s = ⟨s, [(c, t)], false⟩ := by
      rw [hsubs, deliver_members_cons, hm]
      rw [if_neg (by simp : ¬ ((⟨s, [(c, t)], false⟩ : DeliverState).aborted = true))]
      rfl
    rw [deliver_texts_cons, h1]
    rw [if_neg (by simp : ¬ ((⟨s, [(c, t)], false⟩ : DeliverState).aborted = true))]
    show (⟨(deliver_texts send url rest s).store,
      [(c, t)] ++ (deliver_texts send url rest s).log,
      (deliver_texts send url rest s).aborted⟩ : DeliverState) = _
    rw [ih]
    rfl

theorem check_tail_not_aborted (feedUrl : String) (newEntries : List Entry)
    (s : Store) (log : List (String × String)) :
    check_tail feedUrl newEntries ⟨s, log, false⟩ = check_finish feedUrl newEntries (s, log) :=
  rfl

theorem new_entries_scan_split (m : String) (pre post : List Entry) (em : Entry)
    (hpre : ∀ e ∈ pre, entry_matches m e = false)
    (hm : entry_matches m em = true) :
    new_entries_scan m (pre ++ em :: post) = some pre := by
  induction pre with
  | nil => simp [new_entries_scan, hm]
  | cons e rest ih =>
    have he : entry_matches m e = false := hpre e (by simp)
    have ih1 := ih (fun x hx => hpre x (by simp [hx]))
    simp [new_entries_scan, he, ih1]

theorem get_new_entries_split (m : String) (entries pre post : List Entry) (em : Entry)
    (hsplit : entries = pre ++ em :: post)
    (hpre : ∀ e ∈ pre, entry_matches m e = false)
    (hm : entry_matches m em = true) :
    get_new_entries entries (some m) = pre := by
  subst hsplit
  simp [get_new_entries, new_entries_scan_split m pre post em hpre hm]

/-! The claim theorems. -/

/-- C8: a feed whose fetched data lacks a feed link is left untouched by
the poll cycle: the returned store is the input store, so its marker, its
subscriber set and every chat subscription set are unchanged, and no
delivery is attempted. -/
theorem C8_fetch_failure_no_mutation (co : Collab) (send : String → String → SendResult)
    (s : Store) (url : String) (data : FeedData) (h : data.link = none) :
    check_feed co send s url data = some (s, []) := by
  simp [check_feed, h]

/-- Witness for C8 at a concrete invalid feed. -/
theorem C8_witness :
    (⟨none, none, "https://bad.example/", []⟩ : FeedData).link = none ∧
    check_feed idCollab sendOk store0 "https://bad.example/"
      ⟨none, none, "https://bad.example/", []⟩ = some (store0, []) :=
  ⟨rfl, C8_fetch_failure_no_mutation idCollab sendOk store0 "https://bad.example/"
    ⟨none, none, "https://bad.example/", []⟩ rfl⟩

/-- C10: an unsubscribe argument that does not parse as an integer yields
the no-number error and performs no store mutation (the returned store is
the input store). -/
theorem C10_non_integer_arg (s : Store) (c a : String) (h : parse_int a = none) :
    unsubscribe s c (some a) = (UnsubResult.noNumber, s) := by
  simp [unsubscribe, h]

/-- Witness for C10 at a concrete non-numeric argument. -/
theorem C10_witness :
    parse_int "abc" = none ∧
    unsubscribe wStore "100" (some "abc") = (UnsubResult.noNumber, wStore) :=
  ⟨by decide, C10_non_integer_arg wStore "100" "abc" (by decide)⟩

/-- C7: an unsubscribe position below 1 or above the current subscription
count is rejected with an out-of-range error and the store is returned
unchanged. -/
theorem C7_unsubscribe_bounds (s : Store) (c a : String) (n : Int)
    (hp : parse_int a = some n)
    (hout : n < 1 ∨ ((s.chatFeeds c).length : Int) < n) :
    (unsubscribe s c (some a)).2 = s ∧
    ((unsubscribe s c (some a)).1 = UnsubResult.tooLow ∨
     (unsubscribe s c (some a)).1 = UnsubResult.tooHigh) := by
  rcases hout with h | h
  · simp [unsubscribe, hp, h]
  · have h1 : ¬ n < 1 := by omega
    simp [unsubscribe, hp, h1, h]

/-- Witness for C7 at position 0 and at position N + 1 of a chat with one
subscription. -/
theorem C7_witness :
    (parse_int "0" = some 0 ∧ ((0 : Int) < 1 ∨ ((wStore.chatFeeds "100").length : Int) < 0) ∧
      (unsubscribe wStore "100" (some "0")).2 = wStore ∧
      ((unsubscribe wStore "100" (some "0")).1 = UnsubResult.tooLow ∨
       (unsubscribe wStore "100" (some "0")).1 = UnsubResult.tooHigh)) ∧
    (parse_int "2" = some 2 ∧ ((2 : Int) < 1 ∨ ((wStore.chatFeeds "100").length : Int) < 2) ∧
      (unsubscribe wStore "100" (some "2")).2 = wStore ∧
      ((unsubscribe wStore "100" (some "2")).1 = UnsubResult.tooLow ∨
       (unsubscribe wStore "100" (some "2")).1 = UnsubResult.tooHigh)) :=
  ⟨⟨by decide, Or.inl (by decide),
    C7_unsubscribe_bounds wStore "100" "0" 0 (by decide) (Or.inl (by decide))⟩,
   ⟨by decide, Or.inr (by decide),
    C7_unsubscribe_bounds wStore "100" "2" 2 (by decide) (Or.inr (by decide))⟩⟩

theorem subscribe_seed_sets (s : Store) (u : String) (es : List Entry) (s2 : Store)
    (h : subscribe_seed s u es = some s2) :
    s2.chatFeeds = s.chatFeeds ∧ s2.feedSubs = s.feedSubs := by
  cases es with
  | nil =>
    simp [subscribe_seed] at h
    rw [← h]
    exact ⟨rfl, rfl⟩
  | cons e tl =>
    simp only [subscribe_seed] at h
    split at h
    · cases h; exact ⟨rfl, rfl⟩
    · cases hid : entry_identifier e with
      | none => rw [hid] at h; cases h
      | some i => rw [hid] at h; cases h; exact ⟨rfl, rfl⟩

theorem subscribe_seed_marker_isSome (s : Store) (u : String) (e : Entry) (tl : List Entry)
    (s2 : Store) (h : subscribe_seed s u (e :: tl) = some s2) :
    (s2.marker u).isSome = true := by
  simp only [subscribe_seed] at h
  split at h
  · rename_i hsome
    cases h
    exact hsome
  · cases hid : entry_identifier e with
    | none => rw [hid] at h; cases h
    | some i =>
      rw [hid] at h
      cases h
      simp

theorem subscribe_seed_marker_ne (s : Store) (u : String) (es : List Entry) (s2 : Store)
    (f : String) (hf : f ≠ u) (h : subscribe_seed s u es = some s2) :
    s2.marker f = s.marker f := by
  cases es with
  | nil =>
    simp [subscribe_seed] at h
    rw [← h]
  | cons e tl =>
    simp only [subscribe_seed] at h
    split at h
    · cases h; rfl
    · cases hid : entry_identifier e with
      | none => rw [hid] at h; cases h
      | some i => rw [hid] at h; cases h; simp [hf]

/-- C6: after a successful first subscription, exactly one relation
instance exists in each direction, and a second subscribe call for the
same canonical post-redirect URL returns the already-subscribed result
with the store unchanged. -/
theorem C6_idempotent_subscribe (s s1 : Store) (c dl : String) (data : FeedData)
    (hlink : data.link = some dl)
    (hc : c ∉ s.feedSubs data.href)
    (h : subscribe s c data = some (SubResult.added, s1)) :
    (s1.chatFeeds c).count data.href = 1 ∧
    (s1.feedSubs data.href).count c = 1 ∧
    subscribe s1 c data = some (SubResult.alreadySubscribed, s1) := by
  unfold subscribe at h
  rw [hlink] at h
  by_cases hmem : data.href ∈ s.chatFeeds c
  · rw [if_pos hmem] at h
    simp at h
  · rw [if_neg hmem] at h
    cases hs : subscribe_seed s data.href data.entries with
    | none => rw [hs] at h; simp at h
    | some s2 =>
      rw [hs] at h
      simp only [Option.map_some'] at h
      have h2 : s1 = subscribe_add s2 c data.href := by
        cases h
        rfl
      have hcf : s2.chatFeeds = s.chatFeeds := (subscribe_seed_sets s data.href _ s2 hs).1
      have hfs : s2.feedSubs = s.feedSubs := (subscribe_seed_sets s data.href _ s2 hs).2
      subst h2
      have hchat : (subscribe_add s2 c data.href).chatFeeds c = sadd (s.chatFeeds c) data.href := by
        simp [subscribe_add, hcf]
      have hsubs2 : (subscribe_add s2 c data.href).feedSubs data.href
          = sadd (s.feedSubs data.href) c := by
        simp [subscribe_add, hfs]
      refine ⟨?_, ?_, ?_⟩
      · rw [hchat, count_sadd_self_of_not_mem _ _ hmem]
      · rw [hsubs2, count_sadd_self_of_not_mem _ _ hc]
      · unfold subscribe
        rw [hlink, if_pos]
        rw [hchat]
        exact mem_sadd_self _ _

/-- Concrete store produced by the first successful subscribe of the C6
witness. -/
def c6store : Store :=
  ((subscribe store0 "100" wData).map (fun p => p.2)).getD store0

/-- Witness for C6: first subscribe succeeds, then the theorem applies. -/
theorem C6_witness :
    wData.link = some "https://example.org/" ∧
    ("100" ∉ store0.feedSubs wData.href) ∧
    subscribe store0 "100" wData = some (SubResult.added, c6store) ∧
    ((c6store.chatFeeds "100").count wData.href = 1 ∧
     (c6store.feedSubs wData.href).count "100" = 1 ∧
     subscribe c6store "100" wData = some (SubResult.alreadySubscribed, c6store)) :=
  ⟨rfl, by decide, rfl,
   C6_idempotent_subscribe store0 c6store "100" "https://example.org/" wData rfl
     (by decide) rfl⟩

/-- Follows the claim wording for C9: when the entry link matches the
feedproxy pattern the label is the wrapped path segment; otherwise the
label is the link host with a single leading www subdomain label (the
letters www and a dot) stripped; a missing entry link falls back to the
feed link used verbatim as the label. -/
def link_name_claim (entryLink : Option String) (dlink : String) : String :=
  match entryLink with
  | none => dlink
  | some l =>
    match feedproxy_group l with
    | some g => g
    | none =>
      if (netloc l).toList.take 4 = ['w', 'w', 'w', '.'] then
        String.mk ((netloc l).toList.drop 4)
      else netloc l

/-- C9 counterexample: on a host whose first label is www2, the code
strips the label while the claim says the label (not being www) is kept,
so the claim as stated fails at this input. -/
theorem C9_label_counterexample :
    link_name_code (some "https://www2.example.com/a") "https://example.com/"
      = "example.com" ∧
    link_name_claim (some "https://www2.example.com/a") "https://example.com/"
      = "www2.example.com" ∧
    link_name_code (some "https://www2.example.com/a") "https://example.com/"
      ≠ link_name_claim (some "https://www2.example.com/a") "https://example.com/" := by
  refine ⟨?_, ?_, ?_⟩ <;> decide

theorem strip_www_chars_www_digit (d : Char) (t : List Char) (hd : d.isDigit = true) :
    strip_www_chars ('w' :: 'w' :: 'w' :: d :: '.' :: t) = t := by
  have hd1 : d ≠ '.' := by
    intro h
    subst h
    exact absurd hd (by decide)
  unfold strip_www_chars
  rw [if_neg, if_pos]
  · rfl
  · show (true && d.isDigit && true) = true
    simp [hd]
  · intro h4
    have h5 : ('w' :: 'w' :: 'w' :: d :: ([] : List Char)) = ['w', 'w', 'w', '.'] := h4
    simp at h5
    exact hd1 h5

theorem strip_www_chars_no_www (cs : List Char) (h : cs.take 3 ≠ ['w', 'w', 'w']) :
    strip_www_chars cs = cs := by
  unfold strip_www_chars
  rw [if_neg, if_neg]
  · intro hb
    simp only [Bool.and_eq_true, decide_eq_true_eq] at hb
    exact h hb.1.1
  · intro h4
    apply h
    have h3 : cs.take 3 = (cs.take 4).take 3 := by
      rw [List.take_take]
      norm_num
    rw [h3, h4]
    decide

/-- C9 amended: the raw label is the feed link when the entry has no
link, else the wrapped feedproxy path segment when the feedproxy pattern
matches, else the link host; the www substitution is applied to the label
in all three cases, and it strips exactly one leading label consisting of
www or www followed by a single decimal digit, leaving every other label
unchanged. -/
theorem C9_label_amended (dlink : String) (el : Option String) :
    (el = none → link_name_code el dlink = strip_www dlink) ∧
    (∀ l g, el = some l → feedproxy_group l = some g →
      link_name_code el dlink = strip_www g) ∧
    (∀ l, el = some l → feedproxy_group l = none →
      link_name_code el dlink = strip_www (netloc l)) ∧
    (∀ t, strip_www (String.mk ('w' :: 'w' :: 'w' :: '.' :: t)) = String.mk t) ∧
    (∀ d t, d.isDigit = true →
      strip_www (String.mk ('w' :: 'w' :: 'w' :: d :: '.' :: t)) = String.mk t) ∧
    (∀ cs, cs.take 3 ≠ ['w', 'w', 'w'] → strip_www (String.mk cs) = String.mk cs) := by
  refine ⟨?_, ?_, ?_, ?_, ?_, ?_⟩
  · intro h
    subst h
    rfl
  · intro l g hl hg
    subst hl
    simp [link_name_code, raw_label, hg]
  · intro l hl hg
    subst hl
    simp [link_name_code, raw_label, hg]
  · intro t
    rfl
  · intro d t hd
    show String.mk (strip_www_chars ('w' :: 'w' :: 'w' :: d :: '.' :: t)) = String.mk t
    rw [strip_www_chars_www_digit d t hd]
  · intro cs h
    show String.mk (strip_www_chars cs) = String.mk cs
    rw [strip_www_chars_no_www cs h]

/-- Witness for C9 amended, applied to a concrete non-feedproxy link. -/
theorem C9_witness :
    feedproxy_group "https://www.example.com/x" = none ∧
    link_name_code (some "https://www.example.com/x") "https://f.example/"
      = strip_www (netloc "https://www.example.com/x") :=
  ⟨by decide,
   (C9_label_amended "https://f.example/" (some "https://www.example.com/x")).2.2.1
     "https://www.example.com/x" rfl (by decide)⟩

/-- Transport for the C2 instance: chat 100 reports migration to chat
200, everyone else succeeds. -/
def sendMig : String → String → SendResult :=
  fun m _ => if m = "100" then SendResult.migrated "200" else SendResult.success

/-- Store for the C2 instance: chat 100 subscribed to the sample feed,
marker at entry id1, entry id0 is new. -/
def migStore : Store :=
  ⟨fun c => if c = "100" then [wUrl] else [],
   fun f => if f = wUrl then ["100"] else [],
   fun f => if f = wUrl then some "id1" else none⟩

/-- Feed data for the C2 instance: two entries, id0 newest. -/
def migData : FeedData :=
  ⟨some "https://example.org/", some "Example", wUrl, [wEntry 0, wEntry 1]⟩

/-- The rendered text of the new entry of the C2 instance. -/
def migText : String :=
  render idCollab "Example" "https://example.org/" (wEntry 0)

/-- C2: at the concrete migrated delivery, the store is rewritten from
chat 100 to chat 200 (the feed subscriber set and the renamed chat key),
but the single retry attempt for the same rendered entry is addressed to
the old id 100 (bot.py line 334 passes the loop variable member), so no
attempt is ever made to the new id 200, contradicting the claim that the
additional delivery attempt goes to the new id.  That retry to the
migrated old id reports Migrated again; the exception is raised inside
the ChatMigrated handler, so it is uncaught and the invocation aborts
(second conjunct) before bot.py lines 345 to 355, leaving the marker at
id1 and the entry undelivered to 200. -/
theorem C2_migration_retry_target :
    (check_feed idCollab sendMig migStore wUrl migData).map
      (fun p => (p.2, p.1.feedSubs wUrl, p.1.chatFeeds "200", p.1.chatFeeds "100",
        p.1.marker wUrl)) =
      some ([("100", migText), ("100", migText)], ["200"], [wUrl], [], some "id1") ∧
    (deliver_texts sendMig wUrl
      ((get_new_entries migData.entries (migStore.marker wUrl)).reverse.map
        (render idCollab (check_title migData "https://example.org/") "https://example.org/"))
      migStore).aborted = true := by
  refine ⟨?_, ?_⟩ <;> decide

theorem entry_matches_of_identifier (e : Entry) (i : String)
    (h : entry_identifier e = some i) : entry_matches i e = true := by
  unfold entry_identifier at h
  cases hid : e.id with
  | some x =>
    rw [hid] at h
    cases h
    simp [entry_matches, hid]
  | none =>
    rw [hid] at h
    have h2 : e.link = some i := h
    simp [entry_matches, hid, h2]

/-- C5: subscribing to a feed with entries but no stored marker seeds the
marker to the identifier of the newest entry (its id, or its link when it
has no id) without delivering anything, and a subsequent poll cycle that
fetches the same feed data delivers zero entries and leaves the marker
unchanged. -/
theorem C5_cold_start (co : Collab) (send : String → String → SendResult)
    (s : Store) (c i dl : String) (data : FeedData) (e0 : Entry) (tl : List Entry)
    (hlink : data.link = some dl)
    (hmark : s.marker data.href = none)
    (hnot : data.href ∉ s.chatFeeds c)
    (hent : data.entries = e0 :: tl)
    (hid : entry_identifier e0 = some i) :
    (subscribe s c data).map
      (fun p => (p.1, p.2.marker data.href,
        (check_feed co send p.2 data.href data).map
          (fun q => (q.2, q.1.marker data.href)))) =
      some (SubResult.added, some i, some ([], some i)) := by
  have hseed : subscribe_seed s data.href data.entries =
      some { s with marker := fun f => if f = data.href then some i else s.marker f } := by
    rw [hent]
    simp [subscribe_seed, hmark, hid]
  have hsub : subscribe s c data = some (SubResult.added,
      subscribe_add { s with marker := fun f => if f = data.href then some i else s.marker f }
        c data.href) := by
    unfold subscribe
    rw [hlink]
    rw [if_neg hnot, hseed]
    rfl
  rw [hsub]
  simp only [Option.map_some']
  refine congrArg some ?_
  have hm2 : (subscribe_add
      { s with marker := fun f => if f = data.href then some i else s.marker f }
      c data.href).marker data.href = some i := by
    simp [subscribe_add]
  have hge : get_new_entries data.entries (some i) = [] := by
    rw [hent]
    simp [get_new_entries, new_entries_scan, entry_matches_of_identifier e0 i hid]
  have hfs : (subscribe_add
      { s with marker := fun f => if f = data.href then some i else s.marker f }
      c data.href).feedSubs data.href ≠ [] := by
    simp only [subscribe_add, if_pos rfl]
    exact sadd_ne_nil _ _
  have hcf : check_feed co send
      (subscribe_add { s with marker := fun f => if f = data.href then some i else s.marker f }
        c data.href) data.href data =
      some (subscribe_add
        { s with marker := fun f => if f = data.href then some i else s.marker f }
        c data.href, []) := by
    unfold check_feed
    rw [hlink]
    rw [hm2, hge]
    simp only [List.reverse_nil, List.map_nil]
    show check_tail data.href [] ⟨_, [], false⟩ = _
    rw [check_tail_not_aborted]
    unfold check_finish
    rw [if_neg]
    exact hfs
  rw [hcf]
  simp only [Option.map_some']
  rw [hm2]

/-- Witness for C5 at a concrete two-entry feed with no stored marker. -/
theorem C5_witness :
    migData.link = some "https://example.org/" ∧
    store0.marker migData.href = none ∧
    (migData.href ∉ store0.chatFeeds "100") ∧
    migData.entries = wEntry 0 :: [wEntry 1] ∧
    entry_identifier (wEntry 0) = some "id0" ∧
    (subscribe store0 "100" migData).map
      (fun p => (p.1, p.2.marker migData.href,
        (check_feed idCollab sendOk p.2 migData.href migData).map
          (fun q => (q.2, q.1.marker migData.href)))) =
      some (SubResult.added, some "id0", some ([], some "id0")) :=
  ⟨rfl, rfl, by decide, rfl, by decide,
   C5_cold_start idCollab sendOk store0 "100" "id0" "https://example.org/" migData
     (wEntry 0) [wEntry 1] rfl rfl (by decide) rfl (by decide)⟩

/-- C1: when the stored marker matches an entry strictly inside the
newest-first entry list (no earlier entry matching), one poll cycle with
a succeeding transport delivers exactly the entries preceding the match,
oldest first, to the subscriber, and afterwards the stored marker is the
identifier (id, or link when there is no id) of the newest entry of that
non-empty batch. -/
theorem C1_diff_delivery (co : Collab) (send : String → String → SendResult)
    (s : Store) (url dlink m c ident : String) (data : FeedData)
    (pre post : List Entry) (em e0 : Entry)
    (hsend : ∀ mm t, send mm t = SendResult.success)
    (hlink : data.link = some dlink)
    (hmark : s.marker url = some m)
    (hsplit : data.entries = pre ++ em :: post)
    (hpre : ∀ e ∈ pre, entry_matches m e = false)
    (hm : entry_matches m em = true)
    (hhead : pre.head? = some e0)
    (hident : entry_identifier e0 = some ident)
    (hsubs : s.feedSubs url = [c]) :
    (check_feed co send s url data).map (fun p => (p.2, p.1.marker url)) =
      some (pre.reverse.map (fun e => (c, render co (check_title data dlink) dlink e)),
        some ident) := by
  have hge : get_new_entries data.entries (s.marker url) = pre := by
    rw [hmark]
    exact get_new_entries_split m data.entries pre post em hsplit hpre hm
  obtain ⟨p1, ptl, hpcons⟩ : ∃ p1 ptl, pre = p1 :: ptl := by
    cases hp : pre with
    | nil => rw [hp] at hhead; cases hhead
    | cons a t => exact ⟨a, t, rfl⟩
  have he0 : p1 = e0 := by
    rw [hpcons] at hhead
    cases hhead
    rfl
  unfold check_feed
  rw [hlink]
  show Option.map (fun p => (p.2, p.1.marker url))
      (check_tail url (get_new_entries data.entries (s.marker url))
        (deliver_texts send url
          ((get_new_entries data.entries (s.marker url)).reverse.map
            (render co (check_title data dlink) dlink)) s)) = _
  rw [hge]
  rw [deliver_texts_single_success send url c hsend _ s hsubs]
  rw [check_tail_not_aborted]
  unfold check_finish
  rw [if_neg (by simp [hsubs])]
  rw [hpcons]
  simp only []
  rw [he0, hident]
  simp [List.map_map, Function.comp]

/-- Witness for C1 at the concrete ten-entry feed with the marker at
entry id4: entries id3, id2, id1, id0 are delivered in that order and the
marker advances to id0. -/
theorem C1_witness :
    wStore.marker wUrl = some "id4" ∧
    wData.entries =
      [wEntry 0, wEntry 1, wEntry 2, wEntry 3] ++ wEntry 4 ::
        [wEntry 5, wEntry 6, wEntry 7, wEntry 8, wEntry 9] ∧
    wStore.feedSubs wUrl = ["100"] ∧
    (check_feed idCollab sendOk wStore wUrl wData).map (fun p => (p.2, p.1.marker wUrl)) =
      some (([wEntry 0, wEntry 1, wEntry 2, wEntry 3]).reverse.map
          (fun e => ("100",
            render idCollab (check_title wData "https://example.org/") "https://example.org/" e)),
        some "id0") :=
  ⟨rfl, rfl, rfl,
   C1_diff_delivery idCollab sendOk wStore wUrl "https://example.org/" "id4" "100" "id0"
     wData [wEntry 0, wEntry 1, wEntry 2, wEntry 3]
     [wEntry 5, wEntry 6, wEntry 7, wEntry 8, wEntry 9] (wEntry 4) (wEntry 0)
     (fun _ _ => rfl) rfl rfl rfl (by decide) (by decide) rfl (by decide) rfl⟩

/-- Second feed URL for the C3 counterexample. -/
def wUrl2 : String := "https://example.net/feed"

/-- Store for the C3 counterexample: chat 100 subscribed to both feeds. -/
def cexStore : Store :=
  ⟨fun c => if c = "100" then [wUrl, wUrl2] else [],
   fun f => if f = wUrl then ["100"] else if f = wUrl2 then ["100"] else [],
   fun f => if f = wUrl then some "id1" else if f = wUrl2 then some "idB" else none⟩

/-- First feed of the C3 counterexample: one new entry id0. -/
def cexData1 : FeedData :=
  ⟨some "https://example.org/", some "Example", wUrl, [wEntry 0, wEntry 1]⟩

/-- Newest entry of the second feed of the C3 counterexample; it equals
the stored marker, so that feed has no new entries this cycle. -/
def entryB : Entry :=
  ⟨some "idB", some "https://example.net/b", some "B", none, none⟩

/-- Second feed of the C3 counterexample. -/
def cexData2 : FeedData :=
  ⟨some "https://example.net/", some "ExampleNet", wUrl2, [entryB]⟩

/-- A transport for which every delivery reports Unauthorized. -/
def sendUnauth : String → String → SendResult := fun _ _ => SendResult.unauthorized

/-- C3 counterexample: chat 100 subscribes to two feeds; delivery on the
first feed reports Unauthorized, the second feed has no new entries this
cycle.  After the full cycle the chat key of 100 is gone and the first
feed subscriber set and marker are purged, but the second feed subscriber
set still contains 100, refuting the claim that after the cycle no feed
subscriber set contains the chat. -/
theorem C3_unauthorized_counterexample :
    (run_cycle idCollab sendUnauth [(wUrl, cexData1), (wUrl2, cexData2)] cexStore).map
      (fun s => (s.chatFeeds "100", s.feedSubs wUrl, s.feedSubs wUrl2,
        s.marker wUrl, s.marker wUrl2)) =
      some ([], [], ["100"], none, some "idB") := by
  decide

/-- The store after an Unauthorized delivery removed member c from the
subscriber set of feed url and deleted the chat key of c (bot.py lines
324 to 327). -/
def purge_store (s : Store) (url c : String) : Store :=
  { s with
    feedSubs := fun f => if f = url then (s.feedSubs f).erase c else s.feedSubs f,
    chatFeeds := fun cc => if cc = c then [] else s.chatFeeds cc }

theorem deliver_member_unauth (send : String → String → SendResult) (url t c : String)
    (s : Store) (hsend : send c t = SendResult.unauthorized) :
    deliver_member send url t c s = ⟨purge_store s url c, [(c, t)], false⟩ := by
  unfold deliver_member
  rw [hsend]
  rfl

theorem deliver_texts_unauth_single (send : String → String → SendResult)
    (url c : String) (hsend : ∀ t, send c t = SendResult.unauthorized)
    (t : String) (ts : List String) (s : Store) (hsubs : s.feedSubs url = [c]) :
    deliver_texts send url (t :: ts) s = ⟨purge_store s url c, [(c, t)], false⟩ := by
  have hsu : (purge_store s url c).feedSubs url = [] := by
    simp [purge_store, hsubs]
  have h1 : deliver_members send url t (s.feedSubs url) s =
      ⟨purge_store s url c, [(c, t)], false⟩ := by
    rw [hsubs, deliver_members_cons, deliver_member_unauth send url t c s (hsend t)]
    rw [if_neg (by simp :
      ¬ ((⟨purge_store s url c, [(c, t)], false⟩ : DeliverState).aborted = true))]
    rfl
  rw [deliver_texts_cons, h1]
  rw [if_neg (by simp :
    ¬ ((⟨purge_store s url c, [(c, t)], false⟩ : DeliverState).aborted = true))]
  show (⟨(deliver_texts send url ts (purge_store s url c)).store,
    [(c, t)] ++ (deliver_texts send url ts (purge_store s url c)).log,
    (deliver_texts send url ts (purge_store s url c)).aborted⟩ : DeliverState) = _
  rw [deliver_texts_of_no_subs send url ts (purge_store s url c) hsu]
  rfl

/-- C3 amended: when a delivery on feed F reports Unauthorized for its
sole subscriber chat C, then after the cycle for F the chat key of C is
deleted (C has no subscriptions), C is removed from the subscriber set of
F (which, becoming empty, loses its marker), while the subscriber sets of
other feeds and the chat keys of other chats are untouched: feeds with no
delivery this cycle may still list C. -/
theorem C3_unauthorized_amended (co : Collab) (send : String → String → SendResult)
    (s : Store) (url dlink m c g c2 : String) (data : FeedData)
    (pre post : List Entry) (em : Entry)
    (hlink : data.link = some dlink)
    (hmark : s.marker url = some m)
    (hsplit : data.entries = pre ++ em :: post)
    (hpre : ∀ e ∈ pre, entry_matches m e = false)
    (hm : entry_matches m em = true)
    (hne : pre ≠ [])
    (hsubs : s.feedSubs url = [c])
    (hsend : ∀ t, send c t = SendResult.unauthorized)
    (hg : g ≠ url) (hc2 : c2 ≠ c) :
    (check_feed co send s url data).map
      (fun p => (p.1.feedSubs url, p.1.chatFeeds c, p.1.marker url,
        p.1.feedSubs g, p.1.chatFeeds c2)) =
      some ([], [], none, s.feedSubs g, s.chatFeeds c2) := by
  have hge : get_new_entries data.entries (s.marker url) = pre := by
    rw [hmark]
    exact get_new_entries_split m data.entries pre post em hsplit hpre hm
  unfold check_feed
  rw [hlink]
  show Option.map (fun p => (p.1.feedSubs url, p.1.chatFeeds c, p.1.marker url,
        p.1.feedSubs g, p.1.chatFeeds c2))
      (check_tail url (get_new_entries data.entries (s.marker url))
        (deliver_texts send url
          ((get_new_entries data.entries (s.marker url)).reverse.map
            (render co (check_title data dlink) dlink)) s)) = _
  rw [hge]
  obtain ⟨t, ts, hts⟩ : ∃ t ts,
      pre.reverse.map (render co (check_title data dlink) dlink) = t :: ts := by
    cases hx : pre.reverse.map (render co (check_title data dlink) dlink) with
    | nil =>
      exfalso
      apply hne
      have : pre.reverse = [] := by
        cases hy : pre.reverse with
        | nil => rfl
        | cons a b => rw [hy] at hx; cases hx
      cases hz : pre with
      | nil => rfl
      | cons a b =>
        rw [hz] at this
        simp at this
    | cons a b => exact ⟨a, b, rfl⟩
  rw [hts]
  have hsu : (purge_store s url c).feedSubs url = [] := by
    simp [purge_store, hsubs]
  rw [deliver_texts_unauth_single send url c hsend t ts s hsubs]
  rw [check_tail_not_aborted]
  unfold check_finish
  rw [if_pos hsu]
  simp only [Option.map_some']
  simp [purge_store, hsubs, hg, hc2]

/-- Witness for C3 amended at a concrete store with one subscriber. -/
theorem C3_amended_witness :
    migStore.marker wUrl = some "id1" ∧
    migData.entries = [wEntry 0] ++ wEntry 1 :: [] ∧
    migStore.feedSubs wUrl = ["100"] ∧
    (check_feed idCollab sendUnauth migStore wUrl migData).map
      (fun p => (p.1.feedSubs wUrl, p.1.chatFeeds "100", p.1.marker wUrl,
        p.1.feedSubs wUrl2, p.1.chatFeeds "999")) =
      some ([], [], none, migStore.feedSubs wUrl2, migStore.chatFeeds "999") :=
  ⟨rfl, rfl, rfl,
   C3_unauthorized_amended idCollab sendUnauth migStore wUrl "https://example.org/"
     "id1" "100" wUrl2 "999" migData [wEntry 0] [] (wEntry 1)
     rfl rfl rfl (by decide) (by decide) (by decide) rfl (fun _ => rfl)
     (by decide) (by decide)⟩

/-- Feed data with an empty entry list for the C4 counterexample. -/
def emptyFeed : FeedData :=
  ⟨some "https://example.net/", some "Empty", "https://example.net/feed", []⟩

/-- C4 counterexample: subscribing a first chat to a feed whose entry
list is empty creates a subscriber but seeds no marker (bot.py line 200
guards the seeding with the entry list), so the invariant stated by the
claim (a marker exists iff the subscriber set is non-empty, even for an
entry-less feed) is false right after this Subscribe. -/
theorem C4_invariant_counterexample :
    (subscribe store0 "100" emptyFeed).map
      (fun p => (p.1, p.2.feedSubs "https://example.net/feed",
        p.2.marker "https://example.net/feed",
        decide ((p.2.marker "https://example.net/feed").isSome = true ↔
          p.2.feedSubs "https://example.net/feed" ≠ []))) =
      some (SubResult.added, ["100"], none, false) := by
  decide

theorem unsub_step_inv (s : Store) (c u f : String) (hinv : MarkerInv s) :
    (((unsubscribe_clean (unsubscribe_remove s c u) u).marker f).isSome = true) ↔
    (unsubscribe_clean (unsubscribe_remove s c u) u).feedSubs f ≠ [] := by
  unfold unsubscribe_clean
  by_cases hemp : (unsubscribe_remove s c u).feedSubs u = []
  · rw [if_pos hemp]
    by_cases hf : f = u
    · subst hf
      simp [hemp]
    · have h1 : (unsubscribe_remove s c u).marker f = s.marker f := rfl
      have h2 : (unsubscribe_remove s c u).feedSubs f = s.feedSubs f := by
        simp [unsubscribe_remove, hf]
      simp only [hf, if_neg hf]
      rw [h1, h2]
      exact hinv f
  · rw [if_neg hemp]
    by_cases hf : f = u
    · subst hf
      have h2 : (unsubscribe_remove s c f).feedSubs f = (s.feedSubs f).erase c := by
        simp [unsubscribe_remove]
      have h1 : (unsubscribe_remove s c f).marker f = s.marker f := rfl
      rw [h1, h2]
      have h3 : (s.feedSubs f).erase c ≠ [] := by
        rw [← h2]
        exact hemp
      have h4 : s.feedSubs f ≠ [] := ne_nil_of_erase_ne_nil _ _ h3
      constructor
      · intro _
        exact h3
      · intro _
        exact (hinv f).mpr h4
    · have h1 : (unsubscribe_remove s c u).marker f = s.marker f := rfl
      have h2 : (unsubscribe_remove s c u).feedSubs f = s.feedSubs f := by
        simp [unsubscribe_remove, hf]
      rw [h1, h2]
      exact hinv f

theorem subscribe_inv (s : Store) (c : String) (data : FeedData) (s2 : Store) (f : String)
    (hinv : MarkerInv s) (hne : data.entries ≠ [])
    (h : (subscribe s c data).map (fun p => p.2) = some s2) :
    (s2.marker f).isSome = true ↔ s2.feedSubs f ≠ [] := by
  unfold subscribe at h
  cases hl : data.link with
  | none =>
    rw [hl] at h
    simp at h
    rw [← h]
    exact hinv f
  | some dl =>
    rw [hl] at h
    by_cases hmem : data.href ∈ s.chatFeeds c
    · rw [if_pos hmem] at h
      simp at h
      rw [← h]
      exact hinv f
    · rw [if_neg hmem] at h
      cases hs : subscribe_seed s data.href data.entries with
      | none =>
        rw [hs] at h
        simp at h
      | some s1 =>
        rw [hs] at h
        simp at h
        rw [← h]
        by_cases hf : f = data.href
        · obtain ⟨e, tl, hetl⟩ : ∃ e tl, data.entries = e :: tl := by
            cases hx : data.entries with
            | nil => exact absurd hx hne
            | cons a b => exact ⟨a, b, rfl⟩
          have hms : (s1.marker data.href).isSome = true :=
            subscribe_seed_marker_isSome s data.href e tl s1 (by rw [← hetl]; exact hs)
          have hmk : (subscribe_add s1 c data.href).marker data.href
              = s1.marker data.href := rfl
          have hsubs2 : (subscribe_add s1 c data.href).feedSubs data.href
              = sadd (s1.feedSubs data.href) c := by
            simp [subscribe_add]
          rw [hf, hmk, hsubs2]
          constructor
          · intro _
            exact sadd_ne_nil _ _
          · intro _
            exact hms
        · have h1 : (subscribe_add s1 c data.href).feedSubs f = s1.feedSubs f := by
            simp [subscribe_add, hf]
          have h2 : s1.feedSubs f = s.feedSubs f :=
            congrFun (subscribe_seed_sets s data.href data.entries s1 hs).2 f
          have h3 : (subscribe_add s1 c data.href).marker f = s.marker f :=
            subscribe_seed_marker_ne s data.href data.entries s1 f hf hs
          rw [h3, h1, h2]
          exact hinv f

theorem check_finish_inv (s : Store) (u : String) (newE : List Entry)
    (p : Store × List (String × String)) (s2 : Store) (f : String)
    (hinv : MarkerInv s)
    (hmk : p.1.marker = s.marker)
    (hfs : ∀ g, g ≠ u → p.1.feedSubs g = s.feedSubs g)
    (hstart : s.feedSubs u = [] → p.1.feedSubs u = [])
    (h : (check_finish u newE p).map (fun q => q.1) = some s2) :
    (s2.marker f).isSome = true ↔ s2.feedSubs f ≠ [] := by
  unfold check_finish at h
  by_cases hemp : p.1.feedSubs u = []
  · rw [if_pos hemp] at h
    simp at h
    rw [← h]
    by_cases hf : f = u
    · subst hf
      simp [hemp]
    · simp only [if_neg hf]
      rw [congrFun hmk f, hfs f hf]
      exact hinv f
  · rw [if_neg hemp] at h
    cases newE with
    | nil =>
      simp at h
      rw [← h]
      by_cases hf : f = u
      · subst hf
        rw [congrFun hmk f]
        have hs0 : s.feedSubs f ≠ [] := by
          intro h0
          exact hemp (hstart h0)
        constructor
        · intro _
          exact hemp
        · intro _
          exact (hinv f).mpr hs0
      · rw [congrFun hmk f, hfs f hf]
        exact hinv f
    | cons e rest =>
      have h3 : Option.map (fun q => q.1)
          (match entry_identifier e with
           | none => none
           | some i =>
             some ({ p.1 with marker := fun g => if g = u then some i else p.1.marker g },
               p.2)) = some s2 := h
      cases hid : entry_identifier e with
      | none =>
        rw [hid] at h3
        simp at h3
      | some i =>
        rw [hid] at h3
        simp at h3
        rw [← h3]
        by_cases hf : f = u
        · rw [hf]
          simp [hemp]
        · simp only [if_neg hf]
          rw [congrFun hmk f, hfs f hf]
          exact hinv f

theorem check_feed_inv (co : Collab) (send : String → String → SendResult) (s : Store)
    (u : String) (data : FeedData) (s2 : Store) (f : String)
    (hinv : MarkerInv s)
    (h : (check_feed co send s u data).map (fun p => p.1) = some s2) :
    (s2.marker f).isSome = true ↔ s2.feedSubs f ≠ [] := by
  unfold check_feed at h
  cases hl : data.link with
  | none =>
    rw [hl] at h
    simp at h
    rw [← h]
    exact hinv f
  | some dl =>
    rw [hl] at h
    have h1 : (check_tail u (get_new_entries data.entries (s.marker u))
        (deliver_texts send u
          ((get_new_entries data.entries (s.marker u)).reverse.map
            (render co (check_title data dl) dl)) s)).map (fun p => p.1) = some s2 := h
    generalize hts2 : ((get_new_entries data.entries (s.marker u)).reverse.map
        (render co (check_title data dl) dl)) = ts at h1
    unfold check_tail at h1
    by_cases hab : (deliver_texts send u ts s).aborted = true
    · rw [if_pos hab] at h1
      simp at h1
      rw [← h1]
      by_cases hf : f = u
      · rw [hf]
        constructor
        · intro _
          exact deliver_texts_abort_subs send u ts s hab
        · intro _
          rw [congrFun (deliver_texts_marker send u ts s) u]
          apply (hinv u).mpr
          intro h0
          rw [deliver_texts_of_no_subs send u ts s h0] at hab
          simp at hab
      · rw [congrFun (deliver_texts_marker send u ts s) f,
          deliver_texts_feedSubs_ne send u f hf ts s]
        exact hinv f
    · rw [if_neg hab] at h1
      refine check_finish_inv s u _ ((deliver_texts send u ts s).store,
        (deliver_texts send u ts s).log) s2 f hinv ?_ ?_ ?_ h1
      · exact deliver_texts_marker send u ts s
      · intro g hg
        exact deliver_texts_feedSubs_ne send u g hg ts s
      · intro h0
        rw [deliver_texts_of_no_subs send u ts s h0]
        exact h0

/-- C4 amended: every public operation preserves the invariant that a
marker exists for a feed iff that feed subscriber set is non-empty,
provided Subscribe is called on a fetched feed whose entry list is
non-empty; Subscribe on an entry-less feed with no prior marker creates a
subscriber without seeding a marker and breaks the invariant (see the
counterexample).  The poll operation covers the Unauthorized and Migrated
transport outcomes through the universally chosen send function. -/
theorem C4_invariant_amended (op : Op) (s s2 : Store) (f : String)
    (hinv : MarkerInv s)
    (hentries : ∀ c d, op = Op.sub c d → d.entries ≠ [])
    (h : apply_op op s = some s2) :
    (s2.marker f).isSome = true ↔ s2.feedSubs f ≠ [] := by
  cases op with
  | sub c d => exact subscribe_inv s c d s2 f hinv (hentries c d rfl) h
  | unsub c a =>
    have h2 : (unsubscribe s c a).2 = s2 := Option.some.inj h
    rw [← h2]
    cases a with
    | none => exact hinv f
    | some str =>
      show (((unsubscribe s c (some str)).2.marker f).isSome = true) ↔ _
      simp only [unsubscribe]
      cases hpi : parse_int str with
      | none => exact hinv f
      | some n =>
        by_cases h1 : n < 1
        · simp only [if_pos h1]
          exact hinv f
        · by_cases hh : n > ((s.chatFeeds c).length : Int)
          · simp only [if_neg h1, if_pos hh]
            exact hinv f
          · simp only [if_neg h1, if_neg hh]
            exact unsub_step_inv s c _ f hinv
  | poll co send u d => exact check_feed_inv co send s u d s2 f hinv h

/-- Store produced by the C4 witness operation, a first subscribe on the
empty store. -/
def c4store : Store := (apply_op (Op.sub "100" migData) store0).getD store0

/-- Witness for C4 amended: the invariant holds after a first subscribe
of a two-entry feed on the empty store. -/
theorem C4_witness :
    apply_op (Op.sub "100" migData) store0 = some c4store ∧
    ((c4store.marker wUrl).isSome = true ↔ c4store.feedSubs wUrl ≠ []) :=
  ⟨rfl, C4_invariant_amended (Op.sub "100" migData) store0 c4store wUrl
    (fun f => by simp [store0]) (fun c d hcd => by cases hcd; decide) rfl⟩

end RSSBot
